import Mathlib

/-!
Verification of the CEE orchestration and health-aggregation core.

This file shallowly embeds the decision logic of the CEE repository
(`cee_vxsds_utils.py`, `cee_network_utils.py`, `cee_openstack_client.py`,
`cee_integration_example.py`) as executable Lean definitions and proves or
refutes the specified properties about it.

Conventions of the embedding:
* Python dicts with string keys become insertion-ordered association lists;
  assignment to a key is `dictSet` (overwrite in place, else append).
* Adapter calls (OpenStack SDK, VxSDS REST, ovs-vsctl) are modelled by
  explicit input data or by outcome parameters (`Except String α` /
  dedicated outcome inductives): the core logic under verification never
  reaches inside the adapters.
* Python `time.time()` becomes an explicit `now : Int` argument
  (time-units); floats that are only compared or divided become `ℚ`.
* A Python function that may let an exception escape returns
  `Except String α`; the string is the exception message.
-/

/-- Insertion-ordered dict assignment `m[k] = v`: overwrite the existing
entry in place, otherwise append at the end (CPython dict semantics). -/
def dictSet {α : Type} : List (String × α) → String → α → List (String × α)
  | [], k, v => [(k, v)]
  | (k₀, v₀) :: rest, k, v =>
      if k₀ = k then (k, v) :: rest else (k₀, v₀) :: dictSet rest k v

/-- Rendering of a rational with one decimal digit, embedding the
formatting used by the Python `f"{x:.1f}"` capacity messages (the exact
rounding of binary floats is immaterial to every property proved here). -/
def fmt1 (q : ℚ) : String :=
  let n : Int := round (q * 10)
  toString (n / 10) ++ "." ++ toString (n % 10).natAbs

/- ===== Storage data model (cee_vxsds_utils.py) ===== -/

/-- `VxSDSStoragePoolInfo` dataclass (cee_vxsds_utils.py lines 39-49). -/
structure VxSDSStoragePoolInfo where
  id : String
  name : String
  protection_domain : String
  media_type : String
  capacity_gb : Int
  free_capacity_gb : Int
  num_volumes : Int
  spare_percentage : Int
deriving DecidableEq, Repr

/-- `VxSDSVolumeInfo` dataclass (cee_vxsds_utils.py lines 26-36), restricted
to the fields the summary builder reads. -/
structure VxSDSVolumeInfo where
  id : String
  name : String
  size_gb : Int
  storage_pool : String
  volume_type : String
  mapped_sdcs : List String
deriving DecidableEq, Repr

/-- `VxSDSNodeInfo` dataclass (cee_vxsds_utils.py lines 52-60), restricted
to the fields the summary builder reads. -/
structure VxSDSNodeInfo where
  id : String
  name : String
  role : String
  state : String
deriving DecidableEq, Repr

/-- The data the `VxSDSClient` adapter would return on each fetch:
protection domains (the manager only takes their count), storage pools,
volumes, SDC nodes and SDS nodes. -/
structure VxSDSAdapterState where
  protection_domains : List String
  storage_pools : List VxSDSStoragePoolInfo
  volumes : List VxSDSVolumeInfo
  sdc_nodes : List VxSDSNodeInfo
  sds_nodes : List VxSDSNodeInfo
deriving DecidableEq, Repr

/-- Cache fields of `CEEVxSDSManager.__init__` (cee_vxsds_utils.py lines
497-501): `_protection_domains_cache`, `_storage_pools_cache`,
`_cache_time`, `_cache_ttl`. -/
structure CEEVxSDSManagerState where
  pd_cache : Option (List String)
  pools_cache : Option (List VxSDSStoragePoolInfo)
  cache_time : Int
  cache_ttl : Int
deriving DecidableEq, Repr

/-- Fresh manager state: caches are `None`, `_cache_time = 0`,
`_cache_ttl = 300`. -/
def initManagerState : CEEVxSDSManagerState :=
  { pd_cache := none, pools_cache := none, cache_time := 0, cache_ttl := 300 }

/-- `CEEVxSDSManager._update_cache` (cee_vxsds_utils.py lines 503-509):
refresh both caches and the timestamp only when
`now - cache_time > cache_ttl`.  Also returns the names of the adapter
calls issued, for call-count properties. -/
def update_cache (adapter : VxSDSAdapterState) (now : Int)
    (s : CEEVxSDSManagerState) : CEEVxSDSManagerState × List String :=
  if now - s.cache_time > s.cache_ttl then
    ({ s with pd_cache := some adapter.protection_domains,
              pools_cache := some adapter.storage_pools,
              cache_time := now },
     ["get_protection_domains", "get_storage_pools"])
  else (s, [])

/-- The `summary["capacity"]` sub-dict. -/
structure CapacitySummary where
  total_gb : Int
  free_gb : Int
  used_gb : Int
deriving DecidableEq, Repr

/-- One value of the `summary["storage_pools"]` dict. -/
structure PoolSummary where
  capacity_gb : Int
  free_capacity_gb : Int
  num_volumes : Int
  media_type : String
deriving DecidableEq, Repr

/-- One value of the `volume_stats["by_type"]` dict. -/
structure VolumeTypeStats where
  count : Nat
  size_gb : Int
deriving DecidableEq, Repr

/-- The `summary["volumes"]` sub-dict. -/
structure VolumeStats where
  total_count : Nat
  total_size_gb : Int
  by_type : List (String × VolumeTypeStats)
  mapped_count : Nat
deriving DecidableEq, Repr

/-- The `summary["nodes"]` sub-dict. -/
structure NodeStats where
  sdc_count : Nat
  sds_count : Nat
  sdc_online : Nat
  sds_online : Nat
deriving DecidableEq, Repr

/-- The dict returned by `get_cee_storage_summary`. -/
structure StorageSummary where
  timestamp : Int
  protection_domains : Nat
  storage_pools : List (String × PoolSummary)
  volumes : VolumeStats
  nodes : NodeStats
  capacity : CapacitySummary
deriving DecidableEq, Repr

/-- One iteration of the pool loop of `get_cee_storage_summary`
(cee_vxsds_utils.py lines 618-627): record the pool under its name and add
its capacity and free capacity to the running totals. -/
def poolStep (acc : List (String × PoolSummary) × Int × Int)
    (pool : VxSDSStoragePoolInfo) : List (String × PoolSummary) × Int × Int :=
  (dictSet acc.1 pool.name
     { capacity_gb := pool.capacity_gb,
       free_capacity_gb := pool.free_capacity_gb,
       num_volumes := pool.num_volumes,
       media_type := pool.media_type },
   acc.2.1 + pool.capacity_gb,
   acc.2.2 + pool.free_capacity_gb)

/-- The pool loop of `get_cee_storage_summary` (cee_vxsds_utils.py lines
617-627): builds the per-pool dict and accumulates total and free GB. -/
def poolsAccum (pools : List VxSDSStoragePoolInfo) :
    List (String × PoolSummary) × Int × Int :=
  pools.foldl poolStep ([], 0, 0)

/-- The `by_type` update of the volume loop (cee_vxsds_utils.py lines
642-647): create the entry on first sight, then bump count and size. -/
def bumpType : List (String × VolumeTypeStats) → String → Int →
    List (String × VolumeTypeStats)
  | [], t, sz => [(t, { count := 1, size_gb := sz })]
  | (k, v) :: rest, t, sz =>
      if k = t then (k, { count := v.count + 1, size_gb := v.size_gb + sz }) :: rest
      else (k, v) :: bumpType rest t sz

/-- The volume analysis of `get_cee_storage_summary` (cee_vxsds_utils.py
lines 633-652). -/
def volumeStats (vols : List VxSDSVolumeInfo) : VolumeStats :=
  { total_count := vols.length
    total_size_gb := (vols.map (·.size_gb)).sum
    by_type := vols.foldl (fun m v => bumpType m v.volume_type v.size_gb) []
    mapped_count := vols.countP (fun v => !v.mapped_sdcs.isEmpty) }

/-- The node analysis of `get_cee_storage_summary` (cee_vxsds_utils.py
lines 654-663): SDC nodes are online when `state == "Connected"`, SDS
nodes when `state == "Normal"`. -/
def nodeStats (sdc sds : List VxSDSNodeInfo) : NodeStats :=
  { sdc_count := sdc.length
    sds_count := sds.length
    sdc_online := sdc.countP (fun n => n.state == "Connected")
    sds_online := sds.countP (fun n => n.state == "Normal") }

/-- `CEEVxSDSManager.get_cee_storage_summary` (cee_vxsds_utils.py lines
598-665).  Pools and protection domains come from the TTL cache
(`cache or []`); volumes, SDC nodes and SDS nodes are fetched from the
adapter on every call.  `used_gb` is `total_gb - free_gb` with no
clamping (line 629-631).  Returns the summary, the new manager state and
the list of adapter calls issued. -/
def get_cee_storage_summary (adapter : VxSDSAdapterState) (now : Int)
    (s : CEEVxSDSManagerState) :
    StorageSummary × CEEVxSDSManagerState × List String :=
  let s₁ := (update_cache adapter now s).1
  let cacheCalls := (update_cache adapter now s).2
  let pools := s₁.pools_cache.getD []
  let pa := poolsAccum pools
  ({ timestamp := now
     protection_domains := (s₁.pd_cache.getD []).length
     storage_pools := pa.1
     volumes := volumeStats adapter.volumes
     nodes := nodeStats adapter.sdc_nodes adapter.sds_nodes
     capacity := { total_gb := pa.2.1, free_gb := pa.2.2,
                   used_gb := pa.2.1 - pa.2.2 } },
   s₁,
   cacheCalls ++ ["get_volumes", "get_sdc_nodes", "get_sds_nodes"])

/- ===== Storage health classifier (monitor_vxsds_health) ===== -/

/-- The node issue checks of `monitor_vxsds_health` (cee_vxsds_utils.py
lines 687-700): a role with zero nodes is an issue. -/
def node_issues (n : NodeStats) : List String :=
  (if n.sdc_count = 0 then ["Нет доступных SDC узлов"] else [])
    ++ (if n.sds_count = 0 then ["Нет доступных SDS узлов"] else [])

/-- The node warning checks of `monitor_vxsds_health`: a nonempty role with
fewer online than total nodes is a warning. -/
def node_warnings (n : NodeStats) : List String :=
  (if n.sdc_count ≠ 0 ∧ n.sdc_online < n.sdc_count then
     ["Не все SDC узлы онлайн: " ++ toString n.sdc_online ++ "/" ++
        toString n.sdc_count]
   else [])
    ++ (if n.sds_count ≠ 0 ∧ n.sds_online < n.sds_count then
     ["Не все SDS узлы онлайн: " ++ toString n.sds_online ++ "/" ++
        toString n.sds_count]
   else [])

/-- The free-capacity percentage of `monitor_vxsds_health` (cee_vxsds_utils.py
lines 703-706).  `none` means the guard `total_gb > 0` failed and the
division was never performed. -/
def free_percentage (c : CapacitySummary) : Option ℚ :=
  if c.total_gb > 0 then some ((c.free_gb : ℚ) / (c.total_gb : ℚ) * 100)
  else none

/-- The capacity issue check (cee_vxsds_utils.py lines 708-709):
below 10% free is an issue. -/
def capacity_issues (c : CapacitySummary) : List String :=
  match free_percentage c with
  | none => []
  | some p =>
      if p < 10 then ["Критически мало свободного места: " ++ fmt1 p ++ "%"]
      else []

/-- The capacity warning check (cee_vxsds_utils.py lines 710-711):
between 10% and 20% free is a warning. -/
def capacity_warnings (c : CapacitySummary) : List String :=
  match free_percentage c with
  | none => []
  | some p =>
      if p < 10 then []
      else if p < 20 then ["Мало свободного места: " ++ fmt1 p ++ "%"]
      else []

/-- The health report dict of `monitor_vxsds_health`. -/
structure HealthReport where
  timestamp : Int
  overall_status : String
  issues : List String
  warnings : List String
  metrics : Option StorageSummary
deriving DecidableEq, Repr

/-- The classification part of `monitor_vxsds_health` (cee_vxsds_utils.py
lines 684-724): node checks, then the capacity check, then the verdict
(any issue ⇒ critical, else any warning ⇒ warning, else healthy). -/
def vxsds_classify (now : Int) (summary : StorageSummary) : HealthReport :=
  let issues := node_issues summary.nodes ++ capacity_issues summary.capacity
  let warnings :=
    node_warnings summary.nodes ++ capacity_warnings summary.capacity
  { timestamp := now
    overall_status :=
      if issues.isEmpty then (if warnings.isEmpty then "healthy" else "warning")
      else "critical"
    issues := issues
    warnings := warnings
    metrics := some summary }

/-- `CEEVxSDSManager.monitor_vxsds_health` (cee_vxsds_utils.py lines
667-726): fetch the summary, then classify it.  (The `except` branch that
sets `overall_status = "error"` is unreachable here because the embedded
summary builder is total.) -/
def monitor_vxsds_health (adapter : VxSDSAdapterState) (now : Int)
    (s : CEEVxSDSManagerState) :
    HealthReport × CEEVxSDSManagerState × List String :=
  let r := get_cee_storage_summary adapter now s
  (vxsds_classify now r.1, r.2.1, r.2.2)

/- ===== Network module (cee_network_utils.py) ===== -/

/-- The names bound at module level of `cee_network_utils.py` by its import
statements (lines 12-17: `subprocess`, `json`, `logging`, `re`, the
`typing` names and `dataclass`).  The name `time` is NOT among them: the
module only executes `import time` inside its `__main__` demo block
(line 594), so when the module is imported as a library, `time` is
unbound at module scope. -/
def cee_network_utils_module_names : List String :=
  ["subprocess", "json", "logging", "re",
   "Dict", "List", "Optional", "Tuple", "dataclass"]

/-- The module names when the file runs as a script and the `__main__`
block has executed `import time`. -/
def cee_network_utils_script_names : List String :=
  cee_network_utils_module_names ++ ["time"]

/-- The observable environment behind the `ovs-vsctl` / `ps` shell calls of
`CEEOVSManager`: the outcome of `list-br`, the parse of `ovs-vsctl show`
(bridge name to its port list), per-port statistics, and the parsed
`ovs-vswitchd` line of `ps aux` ((cpu, mem) when a line with at least 11
fields exists). -/
structure OVSEnv where
  list_br_ok : Bool
  list_br_out : List String
  bridge_info : List (String × List String)
  port_statistics : List (String × List (String × Int))
  ps_ok : Bool
  ovs_vswitchd_line : Option (ℚ × ℚ)
deriving DecidableEq, Repr

/-- One value of the `performance_data["bridges"]` dict: `ports_count`,
`datapath_type` and the `port_<name>_stats` sub-dicts that were nonempty. -/
structure BridgeEntry where
  ports_count : Nat
  datapath_type : String
  port_stats : List (String × List (String × Int))
deriving DecidableEq, Repr

/-- The dict returned by `monitor_ovs_performance`. -/
structure OVSPerfData where
  timestamp : Int
  bridges : List (String × BridgeEntry)
  cpu_usage : List (String × ℚ)
  memory_usage : List (String × ℚ)
deriving DecidableEq, Repr

/-- The bridge loop of `monitor_ovs_performance` (cee_network_utils.py
lines 323-341): for each nonempty name from `list-br`, look the bridge up
via `get_bridge_info` (skip when absent) and record ports count, datapath
type and each port's nonempty statistics. -/
def collect_bridges (env : OVSEnv) : List (String × BridgeEntry) :=
  if env.list_br_ok then
    env.list_br_out.foldl
      (fun acc b =>
        if b ≠ "" then
          match env.bridge_info.lookup b with
          | some ports =>
              dictSet acc b
                { ports_count := ports.length
                  datapath_type := "system"
                  port_stats := ports.foldl
                    (fun ps p =>
                      let st := (env.port_statistics.lookup p).getD []
                      if st ≠ [] then
                        dictSet ps ("port_" ++ p ++ "_stats") st
                      else ps) [] }
          | none => acc
        else acc)
      []
  else []

/-- `CEEOVSManager.monitor_ovs_performance` (cee_network_utils.py lines
311-359).  The function's very first expression is `time.time()` (line
316), evaluated BEFORE its `try` block: when the module-level name `time`
is unbound (library import), the call raises `NameError` and no result
dict is ever built.  The inner `ps aux` sampling is wrapped in a bare
`except: pass`, so a failed sampling just leaves `cpu_usage` and
`memory_usage` empty. -/
def monitor_ovs_performance (names : List String) (now : Int)
    (env : OVSEnv) : Except String OVSPerfData :=
  if "time" ∈ names then
    .ok { timestamp := now
          bridges := collect_bridges env
          cpu_usage :=
            if env.ps_ok then
              match env.ovs_vswitchd_line with
              | some cm => [("ovs_vswitchd", cm.1)]
              | none => []
            else []
          memory_usage :=
            if env.ps_ok then
              match env.ovs_vswitchd_line with
              | some cm => [("ovs_vswitchd", cm.2)]
              | none => []
            else [] }
  else .error "NameError: name time is not defined"

/-- `CEENetworkTopology._identify_bridge_role` (cee_network_utils.py lines
439-448). -/
def identify_bridge_role (name : String) : String :=
  if name = "br-int" then "integration"
  else if name.startsWith "br-provider" || name.startsWith "br-ex" then
    "provider"
  else if name = "br-tun" then "tunnel"
  else "unknown"

/-- `CEENetworkTopology._identify_node_roles` (cee_network_utils.py lines
472-489): the node type derived from which bridges are present. -/
def identify_node_type (bridgeNames : List String) : String :=
  let hi := "br-int" ∈ bridgeNames
  let ht := "br-tun" ∈ bridgeNames
  let hp := bridgeNames.any
    (fun n => n.startsWith "br-provider" || n.startsWith "br-ex")
  if hi ∧ ht then (if hp then "network_node" else "compute_node")
  else if hi then "controller_node"
  else "unknown"

/-- One value of the `topology["bridges"]` dict. -/
structure TopologyBridge where
  datapath_type : String
  ports : List String
  role : String
deriving DecidableEq, Repr

/-- The dict returned by `discover_cee_topology` (the per-node sections
`compute_nodes`/`controller_nodes`/`network_nodes` stay empty in the
source and are omitted). -/
structure TopologyData where
  bridges : List (String × TopologyBridge)
  tunnels : List String
  node_type : String
deriving DecidableEq, Repr

/-- `CEENetworkTopology.discover_cee_topology` (cee_network_utils.py lines
400-437) over the same shell environment, plus the VXLAN interface list
parsed from `ovs-vsctl --format=json list interface` (`none` models the
bare `except: pass` of `_analyze_vxlan_tunnels`). -/
def discover_cee_topology (env : OVSEnv)
    (vxlan_interfaces : Option (List String)) : TopologyData :=
  let bridges :=
    if env.list_br_ok then
      env.list_br_out.foldl
        (fun acc b =>
          if b ≠ "" then
            match env.bridge_info.lookup b with
            | some ports =>
                dictSet acc b
                  { datapath_type := "system", ports := ports,
                    role := identify_bridge_role b }
            | none => acc
          else acc)
        []
    else []
  { bridges := bridges
    tunnels := vxlan_interfaces.getD []
    node_type := identify_node_type (bridges.map Prod.fst) }

/-- The issue checks of `monitor_cee_network_health` (cee_network_utils.py
lines 565-578): a missing required bridge (`br-int`) is an issue, and
`ovs-vswitchd` CPU above 80 is an issue. -/
def network_health_issues (topo : TopologyData) (perf : OVSPerfData) :
    List String :=
  (if (topo.bridges.lookup "br-int").isNone then
     ["Отсутствует обязательный мост: br-int"]
   else [])
    ++ (match perf.cpu_usage.lookup "ovs_vswitchd" with
        | some cpu =>
            if cpu > 80 then
              ["Высокая загрузка CPU ovs-vswitchd: " ++ toString cpu ++ "%"]
            else []
        | none => [])

/-- The verdict rule of `monitor_cee_network_health` (cee_network_utils.py
lines 580-582): no issues ⇒ healthy; at most two issues ⇒ warning; more
⇒ critical. -/
def network_overall_status (issues : List String) : String :=
  if issues.isEmpty then "healthy"
  else if issues.length ≤ 2 then "warning"
  else "critical"

/-- The dict returned by `monitor_cee_network_health`. -/
structure NetworkHealthReport where
  timestamp : Int
  overall_status : String
  issues : List String
  performance : Option OVSPerfData
  topology : Option TopologyData
deriving DecidableEq, Repr

/-- `monitor_cee_network_health` (cee_network_utils.py lines 541-588).
Like `monitor_ovs_performance` it evaluates `time.time()` (line 549)
before its `try` block, so with `time` unbound it raises `NameError`.
Otherwise it gathers topology and performance data and classifies the
issue list. -/
def monitor_cee_network_health (names : List String) (now : Int)
    (env : OVSEnv) (vxlan_interfaces : Option (List String)) :
    Except String NetworkHealthReport :=
  if "time" ∈ names then
    let topo := discover_cee_topology env vxlan_interfaces
    match monitor_ovs_performance names now env with
    | .ok perf =>
        let issues := network_health_issues topo perf
        .ok { timestamp := now
              overall_status := network_overall_status issues
              issues := issues
              performance := some perf
              topology := some topo }
    | .error e =>
        .ok { timestamp := now
              overall_status := "error"
              issues := ["Ошибка мониторинга: " ++ e]
              performance := none
              topology := some topo }
  else .error "NameError: name time is not defined"

/- ===== Orchestrator (cee_integration_example.py) ===== -/

/-- Outcome of the step-1 call
`openstack_client.create_cee_tenant_setup` as observed by the
orchestrator: a `{"status": "success", "tenant_setup": ...}` dict (carrying
the created project id), a `{"status": "error", "message": ...}` dict
(the client catches its own adapter failures, cee_openstack_client.py
lines 563-565), or an exception escaping the call (e.g. the client was
never initialized). -/
inductive TenantSetupOutcome
  | success (projectId : String)
  | failure (message : String)
  | raised (message : String)
deriving DecidableEq, Repr

/-- Outcome of one `create_ovs_network` call inside
`_setup_tenant_networking`: a success dict, an error dict
(cee_openstack_client.py lines 319-321), or an exception escaping the
call. -/
inductive NetCreateOutcome
  | ok
  | err (message : String)
  | raised (message : String)
deriving DecidableEq, Repr

/-- The dict returned by `_setup_tenant_networking`
(cee_integration_example.py lines 154-187). -/
structure TenantNetworkingResult where
  status : String
  message : Option String
  has_internal : Bool
  has_dmz : Bool
deriving DecidableEq, Repr

/-- `CEEOrchestrator._setup_tenant_networking` (cee_integration_example.py
lines 154-187): create the internal then the DMZ network; record each one
only on success; an exception anywhere turns the whole result into
`status = "error"` with the message, keeping what was already recorded. -/
def setup_tenant_networking (internal dmz : NetCreateOutcome) :
    TenantNetworkingResult :=
  match internal with
  | .raised m =>
      { status := "error", message := some m,
        has_internal := false, has_dmz := false }
  | .ok =>
      match dmz with
      | .raised m =>
          { status := "error", message := some m,
            has_internal := true, has_dmz := false }
      | .ok =>
          { status := "success", message := none,
            has_internal := true, has_dmz := true }
      | .err _ =>
          { status := "success", message := none,
            has_internal := true, has_dmz := false }
  | .err _ =>
      match dmz with
      | .raised m =>
          { status := "error", message := some m,
            has_internal := false, has_dmz := false }
      | .ok =>
          { status := "success", message := none,
            has_internal := false, has_dmz := true }
      | .err _ =>
          { status := "success", message := none,
            has_internal := false, has_dmz := false }

/-- The dict returned by `_create_tenant_security_groups`
(cee_integration_example.py lines 189-243): which of the two security
groups got created before a possible (internally caught) failure. -/
structure SecurityGroupsResult where
  has_web : Bool
  has_ssh : Bool
deriving DecidableEq, Repr

/-- The dict returned by `_setup_tenant_storage_quota`. -/
structure StorageQuotaResult where
  tenant : String
  allocated_quota_gb : Int
  storage_backend : String
  note : String
deriving DecidableEq, Repr

/-- `CEEOrchestrator._setup_tenant_storage_quota` (cee_integration_example.py
lines 245-254): a pure bookkeeping record, no enforced quota. -/
def setup_tenant_storage_quota (tenant_name : String) (quota_gb : Int) :
    StorageQuotaResult :=
  { tenant := tenant_name
    allocated_quota_gb := quota_gb
    storage_backend := "vxsds"
    note := "Storage quota configuration requires additional VxSDS setup" }

/-- The dict returned by `create_complete_tenant_environment`; the
`created_resources` keys become the four `Option` fields. -/
structure TenantEnvResult where
  tenant_name : String
  status : String
  os_resources : Option String
  networking : Option TenantNetworkingResult
  security_groups : Option SecurityGroupsResult
  storage : Option StorageQuotaResult
  errors : List String
deriving DecidableEq, Repr

/-- The provisioning steps of `create_complete_tenant_environment`, used to
record which steps a run actually attempted. -/
inductive StepAttempt
  | tenantSetup
  | networkingStep
  | securityGroupsStep
  | storageQuotaStep
deriving DecidableEq, Repr

/-- `CEEOrchestrator.create_complete_tenant_environment`
(cee_integration_example.py lines 79-152).  Step 1 is the tenant setup:
on a returned error dict the orchestrator appends
`"Ошибка создания OpenStack тенанта: <msg>"` and sets
`status = "partial_failure"`, then STILL runs the networking step (with
`project_id = None`); security groups run only when step 1 succeeded; the
storage-quota bookkeeping always runs.  Only an exception escaping a step
reaches the outer `except`, which sets `status = "error"` and stops; in
this embedding only step 1 can raise (steps 2-4 catch internally).  The
second component lists the steps the run attempted. -/
def create_complete_tenant_environment (tenant_name : String)
    (storage_quota_gb : Int) (step1 : TenantSetupOutcome)
    (internalNet dmzNet : NetCreateOutcome) (sg : SecurityGroupsResult) :
    TenantEnvResult × List StepAttempt :=
  match step1 with
  | .raised m =>
      ({ tenant_name := tenant_name, status := "error",
         os_resources := none, networking := none, security_groups := none,
         storage := none, errors := [m] },
       [.tenantSetup])
  | .success pid =>
      let net := setup_tenant_networking internalNet dmzNet
      let netErrs :=
        if net.status = "success" then []
        else ["Ошибка настройки сети: " ++ net.message.getD "None"]
      ({ tenant_name := tenant_name
         status := if net.status = "success" then "success"
                   else "partial_failure"
         os_resources := some pid
         networking := if net.status = "success" then some net else none
         security_groups := some sg
         storage := some (setup_tenant_storage_quota tenant_name storage_quota_gb)
         errors := netErrs },
       [.tenantSetup, .networkingStep, .securityGroupsStep, .storageQuotaStep])
  | .failure m =>
      let net := setup_tenant_networking internalNet dmzNet
      let netErrs :=
        if net.status = "success" then []
        else ["Ошибка настройки сети: " ++ net.message.getD "None"]
      ({ tenant_name := tenant_name
         status := "partial_failure"
         os_resources := none
         networking := if net.status = "success" then some net else none
         security_groups := none
         storage := some (setup_tenant_storage_quota tenant_name storage_quota_gb)
         errors := ("Ошибка создания OpenStack тенанта: " ++ m) :: netErrs },
       [.tenantSetup, .networkingStep, .storageQuotaStep])

/- ===== deploy_application_stack ===== -/

/-- Outcome of one `create_vm_with_vxsds_storage` call: a success dict
(carrying the created resource), an error dict (the client catches its own
failures, cee_openstack_client.py lines 222-224), or an exception escaping
the call. -/
inductive VMCreateOutcome
  | ok (resource : String)
  | err (message : String)
  | raised (message : String)
deriving DecidableEq, Repr

/-- Outcome of the port listing `conn.network.ports(device_id=...)` done
for an instance with a QoS section (`configure_ovs_qos` itself catches
internally and is not observable here). -/
inductive PortsOutcome
  | ok (ports : List String)
  | raised (message : String)
deriving DecidableEq, Repr

/-- One item of the `instances` list of the stack config: the outcome of
its creation call and, when the item has a `qos` section, the outcome of
its port listing. -/
structure InstanceItem where
  create : VMCreateOutcome
  qos : Option PortsOutcome
deriving DecidableEq, Repr

/-- The dict returned by `deploy_application_stack`. -/
structure StackResult where
  stack_name : String
  status : String
  instances : List String
  volumes : List String
  load_balancers : List String
  message : Option String
deriving DecidableEq, Repr

/-- The volume loop of `deploy_application_stack`
(cee_integration_example.py lines 284-294): collect the successes in
order; an error dict is silently skipped; an exception aborts the loop.
Returns (collected, items whose processing started, aborting message). -/
def runVolumeItems : List VMCreateOutcome → List String × Nat × Option String
  | [] => ([], 0, none)
  | o :: rest =>
    match o with
    | .raised m => ([], 1, some m)
    | .err _ =>
        let r := runVolumeItems rest
        (r.1, r.2.1 + 1, r.2.2)
    | .ok v =>
        let r := runVolumeItems rest
        (v :: r.1, r.2.1 + 1, r.2.2)

/-- The instance loop of `deploy_application_stack`
(cee_integration_example.py lines 296-323): like the volume loop, but a
successfully created instance is recorded BEFORE its QoS handling, so a
port-listing exception keeps the instance and aborts the rest. -/
def runInstanceItems : List InstanceItem → List String × Nat × Option String
  | [] => ([], 0, none)
  | it :: rest =>
    match it.create with
    | .raised m => ([], 1, some m)
    | .err _ =>
        let r := runInstanceItems rest
        (r.1, r.2.1 + 1, r.2.2)
    | .ok v =>
        match it.qos with
        | some (.raised m) => ([v], 1, some m)
        | _ =>
            let r := runInstanceItems rest
            (v :: r.1, r.2.1 + 1, r.2.2)

/-- `CEEOrchestrator.deploy_application_stack` (cee_integration_example.py
lines 256-332).  Both loops run inside one `try`: an exception in the
volume loop prevents the whole instance loop; a final exception-free run
keeps `status = "success"` even when every single item failed via an
error dict.  Besides the result, returns how many volume items and how
many instance items were attempted. -/
def deploy_application_stack (stack_name : String)
    (volumes_config : List VMCreateOutcome)
    (instances_config : List InstanceItem) : StackResult × Nat × Nat :=
  let rv := runVolumeItems volumes_config
  match rv.2.2 with
  | some m =>
      ({ stack_name := stack_name, status := "error", instances := [],
         volumes := rv.1, load_balancers := [], message := some m },
       rv.2.1, 0)
  | none =>
      let ri := runInstanceItems instances_config
      match ri.2.2 with
      | some m =>
          ({ stack_name := stack_name, status := "error", instances := ri.1,
             volumes := rv.1, load_balancers := [], message := some m },
           rv.2.1, ri.2.1)
      | none =>
          ({ stack_name := stack_name, status := "success", instances := ri.1,
             volumes := rv.1, load_balancers := [], message := none },
           rv.2.1, ri.2.1)

/- ===== get_comprehensive_status ===== -/

/-- The dict returned by `get_comprehensive_status`; the three
`components` entries become the three `Option` fields (the OpenStack
component is reduced to the `status` field of the cluster-status dict,
the only part `get_comprehensive_status` reads). -/
structure ComprehensiveStatus where
  timestamp : Int
  overall_health : String
  openstack_component : Option String
  vxsds_component : Option HealthReport
  ovs_component : Option OVSPerfData
  alerts : List String
  recommendations : List String
deriving DecidableEq, Repr

/-- `CEEOrchestrator.get_comprehensive_status` (cee_integration_example.py
lines 336-407), parametric in the outcomes of its three sub-calls:
`get_cee_cluster_status` (total, only its `status` string is read;
`none` models `openstack_client` being `None`), `monitor_vxsds_health`
(total), and `monitor_ovs_performance` (which can raise, see C4; `none`
models `ovs_manager` being `None`).  Sequential merging: an OpenStack
non-success sets `overall_health` to warning; a VxSDS critical verdict
sets it to critical; any other non-healthy VxSDS verdict, or an OVS CPU
above 80, upgrades a healthy state to warning.  The `alerts` list holds
one summary string per triggered condition.  An exception from the OVS
call reaches the outer `except`: `overall_health` becomes `"error"`, the
message is appended to `alerts`, and recommendations stay empty. -/
def get_comprehensive_status (now : Int) (os : Option String)
    (vx : Option HealthReport) (ovs : Option (Except String OVSPerfData)) :
    ComprehensiveStatus :=
  let h₁ : String :=
    match os with
    | some st => if st ≠ "success" then "warning" else "healthy"
    | none => "healthy"
  let a₁ : List String :=
    match os with
    | some st => if st ≠ "success" then ["OpenStack cluster issues detected"] else []
    | none => []
  let h₂ : String :=
    match vx with
    | some hr =>
        if hr.overall_status ≠ "healthy" then
          (if hr.overall_status = "critical" then "critical"
           else if h₁ = "healthy" then "warning" else h₁)
        else h₁
    | none => h₁
  let a₂ : List String :=
    a₁ ++ (match vx with
      | some hr =>
          if hr.overall_status ≠ "healthy" then
            ["VxSDS issues: " ++ hr.overall_status]
          else []
      | none => [])
  match ovs with
  | some (.error e) =>
      { timestamp := now, overall_health := "error",
        openstack_component := os, vxsds_component := vx,
        ovs_component := none,
        alerts := a₂ ++ ["Status collection error: " ++ e],
        recommendations := [] }
  | _ =>
      let perfOpt : Option OVSPerfData :=
        match ovs with
        | some (.ok p) => some p
        | _ => none
      let cpuHigh : Option ℚ :=
        match perfOpt with
        | some p =>
            let c := (p.cpu_usage.lookup "ovs_vswitchd").getD 0
            if c > 80 then some c else none
        | none => none
      let h₃ : String :=
        match cpuHigh with
        | some _ => if h₂ = "healthy" then "warning" else h₂
        | none => h₂
      let a₃ : List String :=
        a₂ ++ (match cpuHigh with
          | some c => ["High OVS CPU usage: " ++ toString c ++ "%"]
          | none => [])
      let baseRec : List String :=
        if a₃.isEmpty then ["System is operating normally"]
        else ["Review alerts and consider maintenance actions"]
      let capRec : List String :=
        match vx with
        | some hr =>
            match hr.metrics with
            | some summ =>
                if summ.capacity.total_gb > 0 ∧
                   (summ.capacity.free_gb : ℚ) / (summ.capacity.total_gb : ℚ) * 100 < 15
                then ["Consider adding storage capacity"]
                else []
            | none => []
        | none => []
      { timestamp := now, overall_health := h₃,
        openstack_component := os, vxsds_component := vx,
        ovs_component := perfOpt,
        alerts := a₃,
        recommendations := baseRec ++ capRec }

/-- Severity contributed by the OpenStack component: a non-success cluster
status sets the overall health to at least warning
(cee_integration_example.py lines 350-356). -/
def os_contribution : Option String → Nat
  | some st => if st ≠ "success" then 1 else 0
  | none => 0

/-- Severity contributed by the VxSDS component
(cee_integration_example.py lines 359-368): critical ⇒ 2, any other
non-healthy verdict (including `"error"`) ⇒ 1, healthy ⇒ 0. -/
def vx_contribution : Option HealthReport → Nat
  | some hr =>
      if hr.overall_status = "critical" then 2
      else if hr.overall_status ≠ "healthy" then 1 else 0
  | none => 0

/-- Severity contributed by the OVS component
(cee_integration_example.py lines 371-381): ovs-vswitchd CPU above 80 ⇒ 1. -/
def ovs_contribution : Option OVSPerfData → Nat
  | some p => if (p.cpu_usage.lookup "ovs_vswitchd").getD 0 > 80 then 1 else 0
  | none => 0

/-- Severity ranks back to status strings. -/
def rank_to_status : Nat → String
  | 0 => "healthy"
  | 1 => "warning"
  | _ => "critical"

/-- Alert string contributed by the OpenStack component. -/
def os_alerts : Option String → List String
  | some st => if st ≠ "success" then ["OpenStack cluster issues detected"] else []
  | none => []

/-- Alert string contributed by the VxSDS component: a single summary
string naming the verdict, not the verdict's issue/warning lists. -/
def vx_alerts : Option HealthReport → List String
  | some hr =>
      if hr.overall_status ≠ "healthy" then
        ["VxSDS issues: " ++ hr.overall_status]
      else []
  | none => []

/-- Alert string contributed by the OVS component. -/
def ovs_alerts : Option OVSPerfData → List String
  | some p =>
      let c := (p.cpu_usage.lookup "ovs_vswitchd").getD 0
      if c > 80 then ["High OVS CPU usage: " ++ toString c ++ "%"] else []
  | none => []

/- ===== perform_health_check ===== -/

/-- One probe's returned dict. -/
structure ProbeResult where
  status : String
  message : String
deriving DecidableEq, Repr

/-- Outcome of one probe function: a returned dict or an exception. -/
abbrev ProbeOutcome := Except String ProbeResult

/-- The dict returned by `perform_health_check`. -/
structure HealthCheckReport where
  timestamp : Int
  checks : List (String × ProbeResult)
  passed : Nat
  failed : Nat
  warnings : Nat
deriving DecidableEq, Repr

/-- The probe loop of `perform_health_check` (cee_integration_example.py
lines 429-447): each probe runs inside its own `try`; an exception is
converted to a `fail` entry with message
`"Check failed with exception: <e>"`; a returned dict is tallied as
pass / warning / fail by its `status` field.  The checks dict appends
each entry under its (distinct) probe name in insertion order. -/
def run_checks (probes : List (String × ProbeOutcome))
    (rep : HealthCheckReport) : HealthCheckReport :=
  match probes with
  | [] => rep
  | (nm, o) :: rest =>
      run_checks rest
        (match o with
         | .ok r =>
             if r.status = "pass" then
               { rep with checks := rep.checks ++ [(nm, r)],
                          passed := rep.passed + 1 }
             else if r.status = "warning" then
               { rep with checks := rep.checks ++ [(nm, r)],
                          warnings := rep.warnings + 1 }
             else
               { rep with checks := rep.checks ++ [(nm, r)],
                          failed := rep.failed + 1 }
         | .error e =>
             { rep with
                checks := rep.checks ++
                  [(nm, { status := "fail",
                          message := "Check failed with exception: " ++ e })],
                failed := rep.failed + 1 })

/-- The fixed battery of probe names (cee_integration_example.py lines
421-427). -/
def check_battery_names : List String :=
  ["openstack_api", "vxsds_connectivity", "ovs_bridges",
   "network_connectivity", "storage_health"]

/-- `CEEOrchestrator.perform_health_check` (cee_integration_example.py
lines 409-448), parametric in the probe outcomes: runs the fixed battery
and always produces the tally. -/
def perform_health_check (now : Int)
    (probes : List (String × ProbeOutcome)) : HealthCheckReport :=
  run_checks probes
    { timestamp := now, checks := [], passed := 0, failed := 0, warnings := 0 }

/- ===== Helper lemmas ===== -/

/-- The pool fold accumulates exactly the sums of the pools' capacity and
free-capacity fields. -/
theorem poolStep_foldl_sums (pools : List VxSDSStoragePoolInfo) :
    ∀ acc : List (String × PoolSummary) × Int × Int,
      (pools.foldl poolStep acc).2.1 =
          acc.2.1 + (pools.map (·.capacity_gb)).sum ∧
        (pools.foldl poolStep acc).2.2 =
          acc.2.2 + (pools.map (·.free_capacity_gb)).sum := by
  induction pools with
  | nil => intro acc; simp
  | cons p ps ih =>
      intro acc
      simp only [List.foldl_cons, List.map_cons, List.sum_cons]
      obtain ⟨h1, h2⟩ := ih (poolStep acc p)
      refine ⟨?_, ?_⟩
      · rw [h1]; simp [poolStep]; ring
      · rw [h2]; simp [poolStep]; ring

/-- `poolsAccum` totals are the pool sums. -/
theorem poolsAccum_total (pools : List VxSDSStoragePoolInfo) :
    (poolsAccum pools).2.1 = (pools.map (·.capacity_gb)).sum := by
  simpa using (poolStep_foldl_sums pools ([], 0, 0)).1

/-- `poolsAccum` free totals are the pool sums. -/
theorem poolsAccum_free (pools : List VxSDSStoragePoolInfo) :
    (poolsAccum pools).2.2 = (pools.map (·.free_capacity_gb)).sum := by
  simpa using (poolStep_foldl_sums pools ([], 0, 0)).2

/- ===== C1 ===== -/

/-- A pool whose reported free capacity exceeds its reported total
capacity (reachable in the source, where `capacity_gb` is computed from
`capacityInUseInKb` while `free_capacity_gb` comes from
`capacityAvailableForVolumeAllocationInKb`). -/
def inconsistentPool : VxSDSStoragePoolInfo :=
  { id := "p1", name := "pool1", protection_domain := "pd1",
    media_type := "SSD", capacity_gb := 0, free_capacity_gb := 5,
    num_volumes := 0, spare_percentage := 10 }

/-- An adapter state exposing only `inconsistentPool`. -/
def inconsistentAdapter : VxSDSAdapterState :=
  { protection_domains := ["pd1"], storage_pools := [inconsistentPool],
    volumes := [], sdc_nodes := [], sds_nodes := [] }

/-- C1 counterexample: the claim says `used_gb` is clamped to 0 when the
summed free capacity exceeds the summed total capacity.  With one pool
reporting `capacity_gb = 0` and `free_capacity_gb = 5`, the returned
summary has `free_gb > total_gb` and `used_gb = -5 < 0`: no clamping
happens. -/
theorem C1_counterexample :
    (get_cee_storage_summary inconsistentAdapter 400
          initManagerState).1.capacity.free_gb >
        (get_cee_storage_summary inconsistentAdapter 400
          initManagerState).1.capacity.total_gb ∧
      (get_cee_storage_summary inconsistentAdapter 400
          initManagerState).1.capacity.used_gb = -5 := by
  decide

/-- C1 (amended): in every summary returned by `get_cee_storage_summary`,
`used_gb` equals `total_gb - free_gb`, where `total_gb` and `free_gb` are
the sums of the cached pools' capacity and free-capacity fields; the
subtraction is not clamped, so `used_gb` is negative whenever the summed
free capacity exceeds the summed total capacity, and no exception is
raised (the embedded builder is a total function). -/
theorem C1_used_gb_is_unclamped_difference (adapter : VxSDSAdapterState)
    (now : Int) (s : CEEVxSDSManagerState) :
    (get_cee_storage_summary adapter now s).1.capacity.used_gb =
        (get_cee_storage_summary adapter now s).1.capacity.total_gb -
          (get_cee_storage_summary adapter now s).1.capacity.free_gb ∧
      (get_cee_storage_summary adapter now s).1.capacity.total_gb =
        ((((get_cee_storage_summary adapter now s).2.1.pools_cache.getD []).map
            (·.capacity_gb)).sum) ∧
      (get_cee_storage_summary adapter now s).1.capacity.free_gb =
        ((((get_cee_storage_summary adapter now s).2.1.pools_cache.getD []).map
            (·.free_capacity_gb)).sum) := by
  refine ⟨rfl, ?_, ?_⟩
  · simp [get_cee_storage_summary, poolsAccum_total]
  · simp [get_cee_storage_summary, poolsAccum_free]

/- ===== C8 ===== -/

/-- C8: when `total_gb = 0`, the capacity check of `monitor_vxsds_health`
is skipped entirely: the free percentage is never computed (no division
happens), no capacity issue and no capacity warning is emitted, and the
verdict's issue and warning lists are exactly those of the node checks. -/
theorem C8_zero_total_skips_capacity_check (now : Int)
    (summary : StorageSummary) (h : summary.capacity.total_gb = 0) :
    free_percentage summary.capacity = none ∧
      capacity_issues summary.capacity = [] ∧
      capacity_warnings summary.capacity = [] ∧
      (vxsds_classify now summary).issues = node_issues summary.nodes ∧
      (vxsds_classify now summary).warnings = node_warnings summary.nodes := by
  have hfp : free_percentage summary.capacity = none := by
    simp [free_percentage, h]
  refine ⟨hfp, ?_, ?_, ?_, ?_⟩ <;>
    simp [capacity_issues, capacity_warnings, vxsds_classify, hfp]

/-- C8 witness: a concrete summary with zero total capacity. -/
theorem C8_zero_total_witness :
    (vxsds_classify 5
        { timestamp := 5, protection_domains := 0, storage_pools := [],
          volumes := { total_count := 0, total_size_gb := 0, by_type := [],
                       mapped_count := 0 },
          nodes := { sdc_count := 1, sds_count := 1, sdc_online := 1,
                     sds_online := 1 },
          capacity := { total_gb := 0, free_gb := 0, used_gb := 0 } }).issues =
      node_issues
        { sdc_count := 1, sds_count := 1, sdc_online := 1, sds_online := 1 } :=
  (C8_zero_total_skips_capacity_check 5 _ (by decide)).2.2.2.1

/- ===== C4 ===== -/

/-- C4: `monitor_ovs_performance` is NOT total when `cee_network_utils` is
imported as a library: its first expression `time.time()` sits before its
`try` block and the module never imports `time` at module level, so the
call raises a bare `NameError` for every input instead of returning a
result dict.  (When the file runs as a script, the `__main__` block's
`import time` masks the bug and the call returns a result.) -/
theorem C4_monitor_ovs_performance_raises_nameerror :
    (∀ (now : Int) (env : OVSEnv),
        monitor_ovs_performance cee_network_utils_module_names now env =
          Except.error "NameError: name time is not defined") ∧
      (∀ (now : Int) (env : OVSEnv),
        (monitor_ovs_performance cee_network_utils_script_names now env).isOk
          = true) := by
  constructor <;> intro now env
  · rw [monitor_ovs_performance, if_neg (by decide)]
  · rw [monitor_ovs_performance, if_pos (by decide)]
    rfl

/- ===== C6 ===== -/

/-- A switch environment with no bridges at all (so `br-int` is missing)
and no process statistics. -/
def bridgelessEnv : OVSEnv :=
  { list_br_ok := true, list_br_out := [], bridge_info := [],
    port_statistics := [], ps_ok := false, ovs_vswitchd_line := none }

/-- C6 counterexample: the claim says any issue yields verdict
`critical` for the network classifier as well.  On an environment whose
`ovs-vsctl list-br` shows no bridges, `monitor_cee_network_health`
(evaluated in script mode, where `time` is bound) reports exactly one
issue (missing `br-int`) yet the verdict is `warning`, not `critical`:
the network classifier maps 1-2 issues to `warning`. -/
theorem C6_counterexample :
    (monitor_cee_network_health cee_network_utils_script_names 0
        bridgelessEnv none).toOption.map
        (fun r => (r.issues.length, r.overall_status)) =
      some (1, "warning") := by
  decide

/-- C6 (amended): the storage classifier (`monitor_vxsds_health`) follows
the claimed precedence — any issue ⇒ `critical`, else any warning ⇒
`warning`, else `healthy` — as a pure function of the emptiness of the two
lists; the network classifier (`monitor_cee_network_health`) instead maps
the issue COUNT: zero issues ⇒ `healthy`, one or two issues ⇒ `warning`,
more than two ⇒ `critical` (and it has no warning list at all). -/
theorem C6_classifier_precedence (now : Int) (summary : StorageSummary)
    (issues : List String) :
    ((vxsds_classify now summary).issues ≠ [] →
        (vxsds_classify now summary).overall_status = "critical") ∧
      ((vxsds_classify now summary).issues = [] →
        (vxsds_classify now summary).warnings ≠ [] →
        (vxsds_classify now summary).overall_status = "warning") ∧
      ((vxsds_classify now summary).issues = [] →
        (vxsds_classify now summary).warnings = [] →
        (vxsds_classify now summary).overall_status = "healthy") ∧
      (issues = [] → network_overall_status issues = "healthy") ∧
      (issues ≠ [] → issues.length ≤ 2 →
        network_overall_status issues = "warning") ∧
      (2 < issues.length → network_overall_status issues = "critical") := by
  refine ⟨?_, ?_, ?_, ?_, ?_, ?_⟩
  · intro h
    simp only [vxsds_classify] at h ⊢
    simp [List.isEmpty_iff, h]
  · intro h hw
    simp only [vxsds_classify] at h hw ⊢
    simp [List.isEmpty_iff, h, hw]
  · intro h hw
    simp only [vxsds_classify] at h hw ⊢
    simp [List.isEmpty_iff, h, hw]
  · intro h
    simp [network_overall_status, h]
  · intro h hl
    simp [network_overall_status, List.isEmpty_iff, h, hl]
  · intro h
    have hne : issues ≠ [] := by
      intro he; rw [he] at h; simp at h
    simp [network_overall_status, List.isEmpty_iff, hne]
    omega

/-- C6 witness: a summary whose node checks yield issues is classified
`critical` by the storage classifier, and a single network issue yields
`warning`. -/
theorem C6_classifier_precedence_witness :
    (vxsds_classify 0
        { timestamp := 0, protection_domains := 0, storage_pools := [],
          volumes := { total_count := 0, total_size_gb := 0, by_type := [],
                       mapped_count := 0 },
          nodes := { sdc_count := 0, sds_count := 0, sdc_online := 0,
                     sds_online := 0 },
          capacity := { total_gb := 0, free_gb := 0, used_gb := 0 } }).overall_status
        = "critical" ∧
      network_overall_status ["no br-int"] = "warning" :=
  ⟨(C6_classifier_precedence 0
      { timestamp := 0, protection_domains := 0, storage_pools := [],
        volumes := { total_count := 0, total_size_gb := 0, by_type := [],
                     mapped_count := 0 },
        nodes := { sdc_count := 0, sds_count := 0, sdc_online := 0,
                   sds_online := 0 },
        capacity := { total_gb := 0, free_gb := 0, used_gb := 0 } }
      ["no br-int"]).1 (by decide),
   (C6_classifier_precedence 0
      { timestamp := 0, protection_domains := 0, storage_pools := [],
        volumes := { total_count := 0, total_size_gb := 0, by_type := [],
                     mapped_count := 0 },
        nodes := { sdc_count := 0, sds_count := 0, sdc_online := 0,
                   sds_online := 0 },
        capacity := { total_gb := 0, free_gb := 0, used_gb := 0 } }
      ["no br-int"]).2.2.2.2.1 (by decide) (by decide)⟩

/- ===== C3 ===== -/

/-- An adapter state with one healthy pool, one volume and one node of
each role, used to exercise the cache. -/
def sampleAdapter : VxSDSAdapterState :=
  { protection_domains := ["pd1"]
    storage_pools :=
      [{ id := "p1", name := "pool1", protection_domain := "pd1",
         media_type := "SSD", capacity_gb := 100, free_capacity_gb := 50,
         num_volumes := 1, spare_percentage := 10 }]
    volumes :=
      [{ id := "v1", name := "vol1", size_gb := 10, storage_pool := "p1",
         volume_type := "ThinProvisioned", mapped_sdcs := ["sdc1"] }]
    sdc_nodes := [{ id := "sdc1", name := "c1", role := "SDC",
                    state := "Connected" }]
    sds_nodes := [{ id := "sds1", name := "s1", role := "SDS",
                    state := "Normal" }] }

/-- C3 counterexample: the claim says a second `get_cee_storage_summary`
call within the TTL window issues NO adapter calls and returns a
bit-identical result.  After a first call at time 400, a second call at
time 401 (well inside the 300-unit window) still issues three adapter
calls (`get_volumes`, `get_sdc_nodes`, `get_sds_nodes` are not cached)
and returns a different result (its `timestamp` is 401, not 400). -/
theorem C3_counterexample :
    (get_cee_storage_summary sampleAdapter 401
        (get_cee_storage_summary sampleAdapter 400 initManagerState).2.1).2.2 ≠
        [] ∧
      (get_cee_storage_summary sampleAdapter 401
          (get_cee_storage_summary sampleAdapter 400
            initManagerState).2.1).1 ≠
        (get_cee_storage_summary sampleAdapter 400 initManagerState).1 := by
  decide

/-- C3 (amended): within one TTL window the second call issues no
protection-domain or storage-pool adapter calls (only the three uncached
fetches `get_volumes`, `get_sdc_nodes`, `get_sds_nodes`), leaves the
cache state unchanged, and — given unchanged adapter data — returns a
result identical to the first call's in every field except `timestamp`,
which is the second call's time. -/
theorem C3_second_call_within_ttl (adapter : VxSDSAdapterState)
    (s : CEEVxSDSManagerState) (now₁ now₂ : Int)
    (h : now₂ - (get_cee_storage_summary adapter now₁ s).2.1.cache_time ≤
      (get_cee_storage_summary adapter now₁ s).2.1.cache_ttl) :
    (get_cee_storage_summary adapter now₂
        (get_cee_storage_summary adapter now₁ s).2.1).2.2 =
        ["get_volumes", "get_sdc_nodes", "get_sds_nodes"] ∧
      (get_cee_storage_summary adapter now₂
          (get_cee_storage_summary adapter now₁ s).2.1).2.1 =
        (get_cee_storage_summary adapter now₁ s).2.1 ∧
      (get_cee_storage_summary adapter now₂
          (get_cee_storage_summary adapter now₁ s).2.1).1 =
        { (get_cee_storage_summary adapter now₁ s).1 with timestamp := now₂ } := by
  have hs : (get_cee_storage_summary adapter now₁ s).2.1 =
      (update_cache adapter now₁ s).1 := rfl
  rw [hs] at h
  have key : update_cache adapter now₂ ((update_cache adapter now₁ s).1) =
      ((update_cache adapter now₁ s).1, []) := by
    rw [update_cache]
    exact if_neg (by omega)
  simp [get_cee_storage_summary, key]

/-- C3 witness: the concrete two-call run at times 400 and 401. -/
theorem C3_second_call_within_ttl_witness :
    (get_cee_storage_summary sampleAdapter 401
        (get_cee_storage_summary sampleAdapter 400 initManagerState).2.1).2.2 =
      ["get_volumes", "get_sdc_nodes", "get_sds_nodes"] :=
  (C3_second_call_within_ttl sampleAdapter initManagerState 400 401
    (by decide)).1

/- ===== C2 ===== -/

/-- C2 counterexample: the claim says that whenever step 1 (the OpenStack
tenant setup) fails, the returned status is `error` and dependent steps
are not attempted.  When step 1 fails by RETURNING an error dict (its own
failure mode: `create_cee_tenant_setup` catches adapter errors itself),
the orchestrator sets `partial_failure`, not `error`, and still attempts
the networking step. -/
theorem C2_counterexample :
    (create_complete_tenant_environment "t1" 100
          (.failure "identity down") .ok .ok
          { has_web := true, has_ssh := true }).1.status =
        "partial_failure" ∧
      StepAttempt.networkingStep ∈
        (create_complete_tenant_environment "t1" 100
          (.failure "identity down") .ok .ok
          { has_web := true, has_ssh := true }).2 := by
  decide

/-- C2 (amended): when step 1 RAISES, `create_complete_tenant_environment`
returns status `error`, attempts no later step, and its error list is
exactly the exception message.  When step 1 fails by returning an error
dict, the status is `partial_failure` (not `error`), security-group
creation is indeed not attempted, but networking and the storage
bookkeeping still are, and the error list contains the step-1 failure
message. -/
theorem C2_foundation_failure (t : String) (q : Int) (m : String)
    (i d : NetCreateOutcome) (sg : SecurityGroupsResult) :
    ((create_complete_tenant_environment t q (.raised m) i d sg).1.status =
        "error" ∧
      (create_complete_tenant_environment t q (.raised m) i d sg).2 =
        [.tenantSetup] ∧
      (create_complete_tenant_environment t q (.raised m) i d sg).1.errors =
        [m]) ∧
      ((create_complete_tenant_environment t q (.failure m) i d sg).1.status =
        "partial_failure" ∧
      StepAttempt.securityGroupsStep ∉
        (create_complete_tenant_environment t q (.failure m) i d sg).2 ∧
      StepAttempt.networkingStep ∈
        (create_complete_tenant_environment t q (.failure m) i d sg).2 ∧
      ("Ошибка создания OpenStack тенанта: " ++ m) ∈
        (create_complete_tenant_environment t q (.failure m) i d sg).1.errors) := by
  refine ⟨⟨rfl, rfl, rfl⟩, rfl, ?_, ?_, ?_⟩
  · simp [create_complete_tenant_environment]
  · simp [create_complete_tenant_environment]
  · simp [create_complete_tenant_environment]

/- ===== C5 ===== -/

/-- C5 counterexample, part 1: a volume item that fails via an error dict
leaves NO trace in the returned result — the run with the failing first
item returns exactly the same result dict as the run without it, with
status `success` and no recorded error.  Part 2: a volume item that
raises stops the batch — with two volume items the run attempts only the
first and never reaches the second (or any instance item). -/
theorem C5_counterexample :
    ((deploy_application_stack "s" [.err "create failed", .ok "v2"] []).1 =
        (deploy_application_stack "s" [.ok "v2"] []).1 ∧
      (deploy_application_stack "s" [.err "create failed", .ok "v2"]
          []).1.status = "success") ∧
      ((deploy_application_stack "s" [.raised "boom", .ok "v2"] []).2.1 =
        1 ∧
      (deploy_application_stack "s" [.raised "boom", .ok "v2"] []).1.status =
        "error") := by
  decide

/-- Removing an error-dict volume item does not change the collected
volumes or the aborting message of the volume loop. -/
theorem runVolumeItems_err_invisible (v₁ : List VMCreateOutcome)
    (m : String) (v₂ : List VMCreateOutcome) :
    (runVolumeItems (v₁ ++ .err m :: v₂)).1 = (runVolumeItems (v₁ ++ v₂)).1 ∧
      (runVolumeItems (v₁ ++ .err m :: v₂)).2.2 =
        (runVolumeItems (v₁ ++ v₂)).2.2 := by
  induction v₁ with
  | nil => simp [runVolumeItems]
  | cons x xs ih =>
      cases x <;> simp [runVolumeItems, ih]

/-- Removing an error-dict instance item does not change the collected
instances or the aborting message of the instance loop. -/
theorem runInstanceItems_err_invisible (i₁ : List InstanceItem) (m : String)
    (q : Option PortsOutcome) (i₂ : List InstanceItem) :
    (runInstanceItems (i₁ ++ { create := .err m, qos := q } :: i₂)).1 =
        (runInstanceItems (i₁ ++ i₂)).1 ∧
      (runInstanceItems (i₁ ++ { create := .err m, qos := q } :: i₂)).2.2 =
        (runInstanceItems (i₁ ++ i₂)).2.2 := by
  induction i₁ with
  | nil => simp [runInstanceItems]
  | cons x xs ih =>
      obtain ⟨c, qx⟩ := x
      cases c with
      | ok v =>
          cases qx with
          | none => simp [runInstanceItems, ih]
          | some po => cases po <;> simp [runInstanceItems, ih]
      | err me => simp [runInstanceItems, ih]
      | raised me => simp [runInstanceItems]

/-- C5 (amended): per-item failures reported via an error dict are
silently skipped — the returned result dict is identical to the one of
the run without the failing item (nothing is recorded) and later items
still run; an exception while processing an item instead aborts the whole
batch: with a raising first volume item, later volume items and the
entire instance list are never attempted (attempt counts 1 and 0), the
status becomes `error` and only the exception message is recorded. -/
theorem C5_best_effort_semantics (s m : String)
    (v₁ v₂ : List VMCreateOutcome) (insts i₁ i₂ : List InstanceItem)
    (q : Option PortsOutcome) :
    (deploy_application_stack s (v₁ ++ .err m :: v₂) insts).1 =
        (deploy_application_stack s (v₁ ++ v₂) insts).1 ∧
      (deploy_application_stack s (v₁ ++ v₂)
          (i₁ ++ { create := .err m, qos := q } :: i₂)).1 =
        (deploy_application_stack s (v₁ ++ v₂) (i₁ ++ i₂)).1 ∧
      deploy_application_stack s (.raised m :: v₂) insts =
        ({ stack_name := s, status := "error", instances := [],
           volumes := [], load_balancers := [], message := some m }, 1, 0) := by
  refine ⟨?_, ?_, rfl⟩
  · obtain ⟨h1, h2⟩ := runVolumeItems_err_invisible v₁ m v₂
    simp only [deploy_application_stack, h1, h2]
    cases hv : (runVolumeItems (v₁ ++ v₂)).2.2 with
    | some mm => rfl
    | none => cases hi : (runInstanceItems insts).2.2 <;> rfl
  · obtain ⟨h1, h2⟩ := runInstanceItems_err_invisible i₁ m q i₂
    cases hv : (runVolumeItems (v₁ ++ v₂)).2.2 with
    | some mm => simp [deploy_application_stack, hv]
    | none =>
        simp only [deploy_application_stack, hv, h1, h2]
        cases hi : (runInstanceItems (i₁ ++ i₂)).2.2 <;> rfl

/- ===== C9 ===== -/

/-- The tally of the probe loop grows by exactly one per probe. -/
theorem run_checks_tally (probes : List (String × ProbeOutcome)) :
    ∀ rep : HealthCheckReport,
      (run_checks probes rep).passed + (run_checks probes rep).warnings +
          (run_checks probes rep).failed =
        rep.passed + rep.warnings + rep.failed + probes.length := by
  induction probes with
  | nil => intro rep; simp [run_checks]
  | cons p ps ih =>
      intro rep
      obtain ⟨nm, o⟩ := p
      cases o with
      | ok r =>
          simp only [run_checks]
          split_ifs <;> (rw [ih]; simp; omega)
      | error e =>
          simp only [run_checks]
          rw [ih]; simp; omega

/-- The probe loop appends exactly one entry per probe, under the probe's
name, in order. -/
theorem run_checks_names (probes : List (String × ProbeOutcome)) :
    ∀ rep : HealthCheckReport,
      (run_checks probes rep).checks.map Prod.fst =
        rep.checks.map Prod.fst ++ probes.map Prod.fst := by
  induction probes with
  | nil => intro rep; simp [run_checks]
  | cons p ps ih =>
      intro rep
      obtain ⟨nm, o⟩ := p
      cases o with
      | ok r =>
          simp only [run_checks]
          split_ifs <;> (rw [ih]; simp)
      | error e =>
          simp only [run_checks]
          rw [ih]; simp

/-- Entries already recorded stay in the checks dict. -/
theorem run_checks_mem (probes : List (String × ProbeOutcome)) :
    ∀ (rep : HealthCheckReport) (x : String × ProbeResult),
      x ∈ rep.checks → x ∈ (run_checks probes rep).checks := by
  induction probes with
  | nil => intro rep x hx; simpa [run_checks] using hx
  | cons p ps ih =>
      intro rep x hx
      obtain ⟨nm, o⟩ := p
      cases o with
      | ok r =>
          simp only [run_checks]
          split_ifs <;> exact ih _ x (by simp [hx])
      | error e =>
          simp only [run_checks]
          exact ih _ x (by simp [hx])

/-- A raising probe contributes a `fail` entry carrying its exception
message. -/
theorem run_checks_fail_entry (probes : List (String × ProbeOutcome)) :
    ∀ (rep : HealthCheckReport) (nm e : String),
      (nm, Except.error e) ∈ probes →
      (nm, ({ status := "fail",
              message := "Check failed with exception: " ++ e } : ProbeResult)) ∈
        (run_checks probes rep).checks := by
  induction probes with
  | nil => intro rep nm e h; simp at h
  | cons p ps ih =>
      intro rep nm e h
      obtain ⟨nm₀, o₀⟩ := p
      rcases List.mem_cons.mp h with heq | htail
      · obtain ⟨h1, h2⟩ := Prod.mk.injEq .. ▸ heq
        subst h1
        cases h2.symm
        simp only [run_checks]
        exact run_checks_mem ps _ _ (by simp)
      · cases o₀ with
        | ok r =>
            simp only [run_checks]
            split_ifs <;> exact ih _ nm e htail
        | error e₀ =>
            simp only [run_checks]
            exact ih _ nm e htail

/-- C9: the health-check battery is isolated and total: every probe gets
an entry in the report (names in order, one per probe), a raising probe's
entry is a `fail` result carrying the exception message, the remaining
probes still run (the name list is unconditionally complete), and the
tally always adds up to the number of probes. -/
theorem C9_health_check_isolation (now : Int)
    (probes : List (String × ProbeOutcome)) (nm e : String) :
    ((perform_health_check now probes).checks.map Prod.fst =
        probes.map Prod.fst) ∧
      ((nm, Except.error e) ∈ probes →
        (nm, ({ status := "fail",
                message := "Check failed with exception: " ++ e } :
            ProbeResult)) ∈ (perform_health_check now probes).checks) ∧
      ((perform_health_check now probes).passed +
          (perform_health_check now probes).warnings +
          (perform_health_check now probes).failed = probes.length) := by
  refine ⟨?_, ?_, ?_⟩
  · simpa using run_checks_names probes
      { timestamp := now, checks := [], passed := 0, failed := 0,
        warnings := 0 }
  · intro h
    exact run_checks_fail_entry probes _ nm e h
  · simpa using run_checks_tally probes
      { timestamp := now, checks := [], passed := 0, failed := 0,
        warnings := 0 }

/-- The `fail` entry produced when a probe raises `"boom"`. -/
def boomEntry : ProbeResult :=
  { status := "fail", message := "Check failed with exception: boom" }

/-- A passing probe result. -/
def passEntry : ProbeResult := { status := "pass", message := "ok" }

/-- A two-probe battery whose first probe raises. -/
def boomBattery : List (String × ProbeOutcome) :=
  [("openstack_api", Except.error "boom"),
   ("storage_health", Except.ok passEntry)]

/-- C9 witness: a battery whose first probe raises. -/
theorem C9_health_check_isolation_witness :
    ("openstack_api", boomEntry) ∈ (perform_health_check 7 boomBattery).checks :=
  (C9_health_check_isolation 7 boomBattery "openstack_api" "boom").2.1
    (List.mem_cons_self _ _)

/- ===== C7 ===== -/

/-- A critical VxSDS health report with one issue string. -/
def hrCritical : HealthReport :=
  { timestamp := 0, overall_status := "critical",
    issues := ["Нет доступных SDC узлов"], warnings := [], metrics := none }

/-- A warning-level VxSDS health report. -/
def hrWarning : HealthReport :=
  { timestamp := 0, overall_status := "warning", issues := [],
    warnings := ["Мало свободного места: 15.0%"], metrics := none }

/-- C7 counterexample: the claim says `get_comprehensive_status` collects
all issue/warning strings of the subsystems into the flat alerts list.
With a critical VxSDS report carrying the issue
`"Нет доступных SDC узлов"`, the alerts list holds only the summary
string `"VxSDS issues: critical"` — the subsystem's issue string never
appears. -/
theorem C7_counterexample :
    (get_comprehensive_status 0 (some "success") (some hrCritical)
          none).alerts = ["VxSDS issues: critical"] ∧
      "Нет доступных SDC узлов" ∉
        (get_comprehensive_status 0 (some "success") (some hrCritical)
          none).alerts := by
  decide

/-- The overall health of `get_comprehensive_status` (absent a collection
exception) is the worst of the three subsystem severity contributions. -/
theorem comprehensive_overall (now : Int) (os : Option String)
    (vx : Option HealthReport) (p : Option OVSPerfData) :
    (get_comprehensive_status now os vx (p.map Except.ok)).overall_health =
      rank_to_status (max (os_contribution os)
        (max (vx_contribution vx) (ovs_contribution p))) := by
  rcases p with _ | perf <;> rcases os with _ | st <;> rcases vx with _ | hr <;>
    simp only [get_comprehensive_status, os_contribution, vx_contribution,
      ovs_contribution, Option.map_none', Option.map_some']
  · rfl
  · by_cases hc : hr.overall_status = "critical" <;>
      by_cases hh : hr.overall_status = "healthy" <;>
      simp_all [rank_to_status]
  · by_cases hst : st = "success" <;> simp_all [rank_to_status]
  · by_cases hst : st = "success" <;>
      by_cases hc : hr.overall_status = "critical" <;>
      by_cases hh : hr.overall_status = "healthy" <;>
      simp_all [rank_to_status]
  · by_cases hcpu : 80 < (perf.cpu_usage.lookup "ovs_vswitchd").getD 0 <;>
      simp [hcpu, rank_to_status]
  · by_cases hcpu : 80 < (perf.cpu_usage.lookup "ovs_vswitchd").getD 0 <;>
      by_cases hc : hr.overall_status = "critical" <;>
      by_cases hh : hr.overall_status = "healthy" <;>
      simp [hcpu, hc, hh, rank_to_status]
  · by_cases hcpu : 80 < (perf.cpu_usage.lookup "ovs_vswitchd").getD 0 <;>
      by_cases hst : st = "success" <;>
      simp [hcpu, hst, rank_to_status]
  · by_cases hcpu : 80 < (perf.cpu_usage.lookup "ovs_vswitchd").getD 0 <;>
      by_cases hst : st = "success" <;>
      by_cases hc : hr.overall_status = "critical" <;>
      by_cases hh : hr.overall_status = "healthy" <;>
      simp [hcpu, hst, hc, hh, rank_to_status]

/-- The alerts of `get_comprehensive_status` (absent a collection
exception) are exactly the per-subsystem summary strings, in order. -/
theorem comprehensive_alerts (now : Int) (os : Option String)
    (vx : Option HealthReport) (p : Option OVSPerfData) :
    (get_comprehensive_status now os vx (p.map Except.ok)).alerts =
      os_alerts os ++ vx_alerts vx ++ ovs_alerts p := by
  rcases p with _ | perf <;> rcases os with _ | st <;> rcases vx with _ | hr <;>
    simp only [get_comprehensive_status, os_alerts, vx_alerts, ovs_alerts,
      Option.map_none', Option.map_some']
  all_goals first
    | rfl
    | (split_ifs <;> rfl)

/-- C7 (amended): absent a collection exception, `get_comprehensive_status`
merges the three subsystems into the worst of their severity
contributions — where only a VxSDS `critical` verdict contributes rank 2,
an OpenStack non-success, any other non-healthy VxSDS verdict, or an OVS
CPU above 80 each contribute rank 1 — and the alerts list is exactly the
three per-subsystem summary strings (never the subsystems' own
issue/warning strings, which are not collected). -/
theorem C7_merge_characterization (now : Int) (os : Option String)
    (vx : Option HealthReport) (p : Option OVSPerfData) :
    ((get_comprehensive_status now os vx (p.map Except.ok)).overall_health =
        rank_to_status (max (os_contribution os)
          (max (vx_contribution vx) (ovs_contribution p)))) ∧
      ((get_comprehensive_status now os vx (p.map Except.ok)).alerts =
        os_alerts os ++ vx_alerts vx ++ ovs_alerts p) :=
  ⟨comprehensive_overall now os vx p, comprehensive_alerts now os vx p⟩

/- ===== C10 ===== -/

/-- C10: absent a collection exception, only the VxSDS subsystem can drive
`overall_health` to `critical`: whenever the VxSDS report is not
`critical`, every combination of OpenStack cluster failures and high
switch-CPU readings yields `healthy` or `warning`. -/
theorem C10_only_storage_drives_critical (now : Int) (os : Option String)
    (vx : Option HealthReport) (p : Option OVSPerfData)
    (h : ∀ hr, vx = some hr → hr.overall_status ≠ "critical") :
    (get_comprehensive_status now os vx (p.map Except.ok)).overall_health =
        "healthy" ∨
      (get_comprehensive_status now os vx (p.map Except.ok)).overall_health =
        "warning" := by
  rw [comprehensive_overall]
  have h1 : os_contribution os ≤ 1 := by
    cases os with
    | none => simp [os_contribution]
    | some st => simp only [os_contribution]; split_ifs <;> omega
  have h2 : vx_contribution vx ≤ 1 := by
    cases vx with
    | none => simp [vx_contribution]
    | some hr =>
        have hnc := h hr rfl
        simp only [vx_contribution]
        split_ifs with hcrit
        · exact absurd hcrit hnc
        · omega
        · omega
  have h3 : ovs_contribution p ≤ 1 := by
    cases p with
    | none => simp [ovs_contribution]
    | some perf => simp only [ovs_contribution]; split_ifs <;> omega
  have hm : max (os_contribution os)
      (max (vx_contribution vx) (ovs_contribution p)) ≤ 1 :=
    max_le h1 (max_le h2 h3)
  rcases Nat.le_one_iff_eq_zero_or_eq_one.mp hm with h0 | h0 <;>
    rw [h0] <;> simp [rank_to_status]

/-- C10 witness: an OpenStack failure together with a warning-level VxSDS
report still yields at most `warning`. -/
theorem C10_only_storage_drives_critical_witness :
    (get_comprehensive_status 0 (some "error") (some hrWarning)
          none).overall_health = "healthy" ∨
      (get_comprehensive_status 0 (some "error") (some hrWarning)
          none).overall_health = "warning" :=
  C10_only_storage_drives_critical 0 (some "error") (some hrWarning) none
    (by intro hr he; cases he; decide)
